import Mathlib

/-!
Shallow embedding of the bluetooth-heatmap-system core
(`src/core/device_manager.py`, `src/core/position_calculator.py`,
`src/analysis/dwell_time_analyzer.py`, `src/analysis/flow_analyzer.py`,
`src/analysis/trajectory_analyzer.py`) together with proofs about the
properties stated in the specification.

Modelling conventions:
* Python `dict`s are association lists (`List (κ × α)`) with
  insertion-order semantics: assignment replaces the value of the first
  matching key in place or appends a fresh pair, deletion removes the
  first matching pair, lookup returns the first match.
* Timestamps (`datetime`) are rationals counting seconds; differences of
  timestamps (`timedelta.total_seconds()`) are plain subtraction.
* Floating point numbers are rationals.  External numeric library calls
  that cannot be expressed exactly over the rationals (numpy's `sqrt`,
  `arctan2`, `hashlib`'s digest, scipy's optimizer) are abstracted as
  function parameters of the embedding.
-/

namespace BHS

/-- First value stored under key `k` (Python `d[k]` / `d.get(k)`). -/
def pyFind? {κ α : Type} [DecidableEq κ] (l : List (κ × α)) (k : κ) : Option α :=
  match l with
  | [] => none
  | (k', v) :: rest => if k' = k then some v else pyFind? rest k

/-- Python `d.get(k, dflt)` and `defaultdict` read access. -/
def pyGetD {κ α : Type} [DecidableEq κ] (l : List (κ × α)) (k : κ) (dflt : α) : α :=
  (pyFind? l k).getD dflt

/-- Python `k in d`. -/
def pyMem {κ α : Type} [DecidableEq κ] (l : List (κ × α)) (k : κ) : Bool :=
  (pyFind? l k).isSome

/-- Python `d[k] = v`: replace the first binding of `k` in place, else append. -/
def pySet {κ α : Type} [DecidableEq κ] (l : List (κ × α)) (k : κ) (v : α) : List (κ × α) :=
  match l with
  | [] => [(k, v)]
  | (k', v') :: rest => if k' = k then (k', v) :: rest else (k', v') :: pySet rest k v

/-- Python `del d[k]`: remove the first binding of `k`. -/
def pyErase {κ α : Type} [DecidableEq κ] (l : List (κ × α)) (k : κ) : List (κ × α) :=
  match l with
  | [] => []
  | (k', v') :: rest => if k' = k then rest else (k', v') :: pyErase rest k

@[simp] theorem pyFind?_nil {κ α : Type} [DecidableEq κ] (k : κ) :
    pyFind? ([] : List (κ × α)) k = none := rfl

@[simp] theorem pyFind?_cons {κ α : Type} [DecidableEq κ] (k k' : κ) (v : α)
    (l : List (κ × α)) :
    pyFind? ((k', v) :: l) k = if k' = k then some v else pyFind? l k := rfl

theorem pyFind?_pySet_self {κ α : Type} [DecidableEq κ] (l : List (κ × α)) (k : κ) (v : α) :
    pyFind? (pySet l k v) k = some v := by
  induction l with
  | nil => simp [pySet]
  | cons p rest ih =>
      obtain ⟨k', v'⟩ := p
      by_cases h : k' = k
      · simp [pySet, h]
      · simp [pySet, h, ih]

theorem pyFind?_pySet_ne {κ α : Type} [DecidableEq κ] (l : List (κ × α)) (k k' : κ) (v : α)
    (h : k ≠ k') : pyFind? (pySet l k v) k' = pyFind? l k' := by
  induction l with
  | nil => simp [pySet, h]
  | cons p rest ih =>
      obtain ⟨k'', v''⟩ := p
      by_cases hk : k'' = k
      · subst hk
        simp [pySet, h]
      · simp [pySet, hk, ih]

theorem mem_pySet {κ α : Type} [DecidableEq κ] {l : List (κ × α)} {k : κ} {v : α} {q : κ × α}
    (h : q ∈ pySet l k v) : q = (k, v) ∨ q ∈ l := by
  induction l with
  | nil => simpa [pySet] using h
  | cons p rest ih =>
      obtain ⟨k', v'⟩ := p
      by_cases hk : k' = k
      · subst hk
        rcases (by simpa [pySet] using h : q = (k', v) ∨ q ∈ rest) with h1 | h1
        · exact Or.inl (by simp [h1])
        · exact Or.inr (by simp [h1])
      · rcases (by simpa [pySet, hk] using h : q = (k', v') ∨ q ∈ pySet rest k v) with h1 | h1
        · exact Or.inr (by simp [h1])
        · rcases ih h1 with h2 | h2
          · exact Or.inl h2
          · exact Or.inr (by simp [h2])

theorem mem_pyErase {κ α : Type} [DecidableEq κ] {l : List (κ × α)} {k : κ} {q : κ × α}
    (h : q ∈ pyErase l k) : q ∈ l := by
  induction l with
  | nil => simp [pyErase] at h
  | cons p rest ih =>
      obtain ⟨k', v'⟩ := p
      by_cases hk : k' = k
      · exact List.mem_cons_of_mem _ (by simpa [pyErase, hk] using h)
      · rcases (by simpa [pyErase, hk] using h : q = (k', v') ∨ q ∈ pyErase rest k) with h1 | h1
        · simp [h1]
        · exact List.mem_cons_of_mem _ (ih h1)

theorem pyFind?_eq_none_of_not_mem_keys {κ α : Type} [DecidableEq κ] {l : List (κ × α)} {k : κ}
    (h : k ∉ l.map Prod.fst) : pyFind? l k = none := by
  induction l with
  | nil => rfl
  | cons p rest ih =>
      obtain ⟨k', v'⟩ := p
      simp only [List.map_cons, List.mem_cons] at h
      push_neg at h
      simp [pyFind?, Ne.symm h.1, ih h.2]

theorem pyFind?_pyErase_self {κ α : Type} [DecidableEq κ] (l : List (κ × α)) (k : κ)
    (hnd : (l.map Prod.fst).Nodup) : pyFind? (pyErase l k) k = none := by
  induction l with
  | nil => simp [pyErase]
  | cons p rest ih =>
      obtain ⟨k', v'⟩ := p
      simp only [List.map_cons, List.nodup_cons] at hnd
      by_cases hk : k' = k
      · subst hk
        simpa [pyErase] using pyFind?_eq_none_of_not_mem_keys hnd.1
      · simp [pyErase, hk, ih hnd.2]

/-- Stable insertion of `x` into `l`: `x` is placed before the first element
`y` with `lt x y`.  `lt` is the strict "must come before" test. -/
def insortBefore {α : Type} (lt : α → α → Bool) (x : α) : List α → List α
  | [] => [x]
  | y :: ys => if lt x y then x :: y :: ys else y :: insortBefore lt x ys

/-- Stable sort (the unique stable order for the comparator, hence
extensionally equal to Python's stable `sort`/`sorted`). -/
def pySorted {α : Type} (lt : α → α → Bool) (l : List α) : List α :=
  l.foldl (fun acc x => insortBefore lt x acc) []

theorem insortBefore_perm {α : Type} (lt : α → α → Bool) (x : α) (l : List α) :
    (insortBefore lt x l).Perm (x :: l) := by
  induction l with
  | nil => exact List.Perm.refl _
  | cons y ys ih =>
      by_cases h : lt x y
      · simp [insortBefore, h]
      · simp only [insortBefore, h]
        exact ((ih.cons y).trans (List.Perm.swap x y ys)).symm.symm

theorem pySorted_perm {α : Type} (lt : α → α → Bool) (l : List α) :
    (pySorted lt l).Perm l := by
  suffices h : ∀ acc : List α, (l.foldl (fun acc x => insortBefore lt x acc) acc).Perm
      (l.reverse ++ acc) by
    have h0 := h []
    simp only [List.append_nil] at h0
    exact (h0.trans (List.reverse_perm l))
  induction l with
  | nil => intro acc; simp
  | cons y ys ih =>
      intro acc
      simp only [List.foldl_cons, List.reverse_cons, List.append_assoc, List.singleton_append]
      exact (ih (insortBefore lt y acc)).trans
        (List.perm_append_left_iff _ |>.mpr (insortBefore_perm lt y acc))

/-! ## Dwell-time analyzer (`src/analysis/dwell_time_analyzer.py`)

Timestamps are rationals (seconds).  `numpy`'s floating `sqrt` (used by
`np.std`) is abstracted as a parameter `sq : ℚ → ℚ` of the statistics
computation. -/

/-- Python truthiness of an optional zone string (`None` and `""` are falsy). -/
def truthyZone (z : Option String) : Bool :=
  match z with
  | none => false
  | some s => !(s = "")

/-- `DwellRecord` dataclass. -/
structure DwellRecord where
  device_id : String
  zone_id : String
  entry_time : ℚ
  exit_time : Option ℚ
  duration : ℚ
  is_active : Bool
deriving DecidableEq, Repr

/-- `ZoneStatistics` dataclass. -/
structure ZoneStatistics where
  zone_id : String
  total_visits : ℕ
  unique_visitors : ℕ
  avg_duration : ℚ
  median_duration : ℚ
  max_duration : ℚ
  min_duration : ℚ
  std_duration : ℚ
  current_occupancy : ℤ
  peak_occupancy : ℤ
  peak_time : Option ℚ
deriving DecidableEq, Repr

/-- Mutable state of `DwellTimeAnalyzer`. -/
structure DwellTimeAnalyzer where
  min_dwell_time : ℚ
  dwell_records : List (String × List DwellRecord)
  active_dwells : List (String × DwellRecord)
  zone_occupancy : List (String × ℤ)
  zone_peak_occupancy : List (String × (ℤ × ℚ))
  stats_cache : List (String × ZoneStatistics)
  cache_timestamp : Option ℚ
deriving DecidableEq, Repr

/-- The closed version of a record produced by `exit_zone` at time `t`
(`exit_time`, `duration` and `is_active` updated as in the source). -/
def closeRecord (r : DwellRecord) (t : ℚ) : DwellRecord :=
  { r with exit_time := some t, duration := t - r.entry_time, is_active := false }

/-- The fresh active record opened by `enter_zone` at time `t`. -/
def freshRecord (device_id zone_id : String) (t : ℚ) : DwellRecord :=
  { device_id := device_id, zone_id := zone_id, entry_time := t, exit_time := none,
    duration := 0, is_active := true }

/-- numpy `np.max` on a (nonempty) list; `0` stands for the unreached empty case. -/
def npMax (l : List ℚ) : ℚ :=
  match l with
  | [] => 0
  | a :: rest => rest.foldl max a

/-- numpy `np.min` on a (nonempty) list; `0` stands for the unreached empty case. -/
def npMin (l : List ℚ) : ℚ :=
  match l with
  | [] => 0
  | a :: rest => rest.foldl min a

/-- numpy `np.mean`. -/
def npMean (l : List ℚ) : ℚ :=
  l.sum / (l.length : ℚ)

/-- numpy `np.median`: middle element of the sorted list, or the average of
the two middle elements for even length. -/
def npMedian (l : List ℚ) : ℚ :=
  let s := pySorted (fun a b => decide (a < b)) l
  let n := s.length
  if n % 2 = 1 then s.getD (n / 2) 0
  else (s.getD (n / 2 - 1) 0 + s.getD (n / 2) 0) / 2

/-- Python `timedelta.seconds` of a rational span: whole seconds modulo one day
(the days component is discarded, as in `datetime`'s normalization). -/
def tdSeconds (q : ℚ) : ℤ :=
  ⌊q⌋ % 86400

namespace DwellTimeAnalyzer

/-- Fresh analyzer as built by `__init__` (`min_duration` from config, default 10). -/
def initAnalyzer (min_dwell_time : ℚ) : DwellTimeAnalyzer :=
  { min_dwell_time := min_dwell_time
    dwell_records := []
    active_dwells := []
    zone_occupancy := []
    zone_peak_occupancy := []
    stats_cache := []
    cache_timestamp := none }

/-- `exit_zone`: close the active record of `device_id` (if any), store it when
its duration reaches `min_dwell_time`, decrement occupancy of the *passed*
`zone_id`, clear the statistics cache; returns the record when stored. -/
def exit_zone (st : DwellTimeAnalyzer) (device_id zone_id : String) (t : ℚ) :
    DwellTimeAnalyzer × Option DwellRecord :=
  match pyFind? st.active_dwells device_id with
  | none => (st, none)
  | some r =>
      let record : DwellRecord := closeRecord r t
      let storedRecs := pyGetD st.dwell_records record.zone_id [] ++ [record]
      let st :=
        if record.duration ≥ st.min_dwell_time then
          { st with dwell_records := pySet st.dwell_records record.zone_id storedRecs }
        else st
      let st := { st with active_dwells := pyErase st.active_dwells device_id }
      let newOcc : ℤ := max 0 (pyGetD st.zone_occupancy zone_id 0 - 1)
      let st := { st with zone_occupancy := pySet st.zone_occupancy zone_id newOcc }
      let st := { st with stats_cache := [], cache_timestamp := none }
      (st, if record.duration ≥ st.min_dwell_time then some record else none)

/-- `enter_zone`: synthesize an exit for an already-active dwell, then open a
fresh active record, bump occupancy and the peak-occupancy pair. -/
def enter_zone (st : DwellTimeAnalyzer) (device_id zone_id : String) (t : ℚ) :
    DwellTimeAnalyzer :=
  let st :=
    match pyFind? st.active_dwells device_id with
    | some r => (exit_zone st device_id r.zone_id t).1
    | none => st
  let record : DwellRecord := freshRecord device_id zone_id t
  let st := { st with active_dwells := pySet st.active_dwells device_id record }
  let occ := pyGetD st.zone_occupancy zone_id 0 + 1
  let st := { st with zone_occupancy := pySet st.zone_occupancy zone_id occ }
  match pyFind? st.zone_peak_occupancy zone_id with
  | none => { st with zone_peak_occupancy := pySet st.zone_peak_occupancy zone_id (occ, t) }
  | some (peak, _) =>
      if occ > peak then
        { st with zone_peak_occupancy := pySet st.zone_peak_occupancy zone_id (occ, t) }
      else st

/-- `update_position`: driving entry point; diffs the active zone against the
new one and performs `exit_zone` / `enter_zone` accordingly. -/
def update_position (st : DwellTimeAnalyzer) (device_id : String) (zone_id : Option String)
    (t : ℚ) : DwellTimeAnalyzer :=
  match pyFind? st.active_dwells device_id with
  | some r =>
      if zone_id ≠ some r.zone_id then
        let st := (exit_zone st device_id r.zone_id t).1
        if truthyZone zone_id then enter_zone st device_id (zone_id.getD "") t else st
      else st
  | none =>
      if truthyZone zone_id then enter_zone st device_id (zone_id.getD "") t else st

/-- Statistics block computed by `get_zone_statistics` for a nonempty record
list.  `sq` abstracts numpy's floating `sqrt` (`np.std x = sqrt (variance x)`). -/
def mkZoneStats (sq : ℚ → ℚ) (st : DwellTimeAnalyzer) (zone_id : String)
    (records : List DwellRecord) : ZoneStatistics :=
  let durations := records.map (·.duration)
  let n : ℚ := (durations.length : ℚ)
  let meanD := durations.sum / n
  { zone_id := zone_id
    total_visits := records.length
    unique_visitors := (records.map (·.device_id)).dedup.length
    avg_duration := meanD
    median_duration := npMedian durations
    max_duration := npMax durations
    min_duration := npMin durations
    std_duration := sq ((durations.map (fun x => (x - meanD) ^ 2)).sum / n)
    current_occupancy := pyGetD st.zone_occupancy zone_id 0
    peak_occupancy :=
      match pyFind? st.zone_peak_occupancy zone_id with
      | some p => p.1
      | none => 0
    peak_time :=
      match pyFind? st.zone_peak_occupancy zone_id with
      | some p => some p.2
      | none => none }

/-- `get_zone_statistics`: cached when called without a time range and the
cache is younger than 60 seconds; otherwise recomputed from the stored
records (filtered by entry time when a range is given) and, for range-free
calls, written back to the cache.  `now` models `datetime.now()`. -/
def get_zone_statistics (sq : ℚ → ℚ) (st : DwellTimeAnalyzer) (zone_id : String)
    (start_time end_time : Option ℚ) (now : ℚ) :
    DwellTimeAnalyzer × Option ZoneStatistics :=
  let cacheHit :=
    start_time.isNone && end_time.isNone && pyMem st.stats_cache zone_id &&
      (match st.cache_timestamp with
       | some ts => decide (tdSeconds (now - ts) < 60)
       | none => false)
  if cacheHit then (st, pyFind? st.stats_cache zone_id)
  else
    let records := pyGetD st.dwell_records zone_id []
    let records :=
      if start_time.isSome || end_time.isSome then
        records.filter (fun r =>
          (match start_time with
           | some s => decide (¬ r.entry_time < s)
           | none => true) &&
          (match end_time with
           | some e => decide (¬ e < r.entry_time)
           | none => true))
      else records
    if records.isEmpty then (st, none)
    else
      let stats := mkZoneStats sq st zone_id records
      let st' :=
        if start_time.isNone && end_time.isNone then
          { st with stats_cache := pySet st.stats_cache zone_id stats,
                    cache_timestamp := some now }
        else st
      (st', some stats)

/-- One analyzer call, for reasoning about arbitrary call sequences. -/
inductive DwellOp where
  | enterOp (device_id zone_id : String) (t : ℚ)
  | exitOp (device_id zone_id : String) (t : ℚ)
  | updateOp (device_id : String) (zone_id : Option String) (t : ℚ)

/-- Apply one call (the return value of `exit_zone` is discarded). -/
def applyDwellOp (st : DwellTimeAnalyzer) : DwellOp → DwellTimeAnalyzer
  | .enterOp d z t => enter_zone st d z t
  | .exitOp d z t => (exit_zone st d z t).1
  | .updateOp d z t => update_position st d z t

/-- Run a sequence of calls. -/
def runDwell (st : DwellTimeAnalyzer) : List DwellOp → DwellTimeAnalyzer
  | [] => st
  | op :: ops => runDwell (applyDwellOp st op) ops

/-- Every record stored in `dwell_records` is closed (`is_active = false`);
only the per-device map `active_dwells` can hold active records. -/
def storedInactive (st : DwellTimeAnalyzer) : Prop :=
  ∀ p ∈ st.dwell_records, ∀ r ∈ p.2, r.is_active = false

/-- Number of active `DwellRecord`s the analyzer holds for device `d`:
the device's entry in `active_dwells` (if active) plus every active record
stored in `dwell_records`. -/
def activeCount (st : DwellTimeAnalyzer) (d : String) : ℕ :=
  (match pyFind? st.active_dwells d with
   | some r => if r.is_active then 1 else 0
   | none => 0) +
  (st.dwell_records.map
    (fun p => (p.2.filter (fun r => r.device_id = d && r.is_active)).length)).sum

theorem pyFind?_mem {κ α : Type} [DecidableEq κ] {l : List (κ × α)} {k : κ} {v : α}
    (h : pyFind? l k = some v) : (k, v) ∈ l := by
  induction l with
  | nil => simp [pyFind?] at h
  | cons p rest ih =>
      obtain ⟨k', v'⟩ := p
      by_cases hk : k' = k
      · subst hk
        rw [pyFind?_cons, if_pos rfl] at h
        injection h with h
        subst h
        exact List.mem_cons_self _ _
      · exact List.mem_cons_of_mem _ (ih (by simpa [pyFind?, hk] using h))

theorem mem_pyGetD_records {st : DwellTimeAnalyzer} (h : storedInactive st) (z : String)
    {r : DwellRecord} (hr : r ∈ pyGetD st.dwell_records z []) : r.is_active = false := by
  unfold pyGetD at hr
  cases hfind : pyFind? st.dwell_records z with
  | none => rw [hfind] at hr; simp at hr
  | some l =>
      rw [hfind] at hr
      exact h (z, l) (pyFind?_mem hfind) r hr

theorem storedInactive_exit_zone {st : DwellTimeAnalyzer} (h : storedInactive st)
    (d z : String) (t : ℚ) : storedInactive (exit_zone st d z t).1 := by
  unfold exit_zone
  cases hfind : pyFind? st.active_dwells d with
  | none => simpa using h
  | some r =>
      simp only
      by_cases hdur : t - r.entry_time ≥ st.min_dwell_time
      · simp only [closeRecord, if_pos hdur]
        intro p hp r' hr'
        rcases mem_pySet hp with h1 | h1
        · subst h1
          rcases List.mem_append.mp hr' with h2 | h2
          · exact mem_pyGetD_records h _ h2
          · simp only [List.mem_singleton] at h2
            subst h2
            rfl
        · exact h p h1 r' hr'
      · simp only [closeRecord, if_neg hdur]
        exact h

theorem dwell_records_enter_zone (st : DwellTimeAnalyzer) (d z : String) (t : ℚ) :
    (enter_zone st d z t).dwell_records =
      (match pyFind? st.active_dwells d with
       | some r => (exit_zone st d r.zone_id t).1
       | none => st).dwell_records := by
  unfold enter_zone
  cases pyFind? st.active_dwells d <;> simp only <;> split <;> (try split) <;> rfl

theorem storedInactive_enter_zone {st : DwellTimeAnalyzer} (h : storedInactive st)
    (d z : String) (t : ℚ) : storedInactive (enter_zone st d z t) := by
  have hrec := dwell_records_enter_zone st d z t
  unfold storedInactive
  rw [hrec]
  cases hfind : pyFind? st.active_dwells d with
  | none => exact h
  | some r => exact storedInactive_exit_zone h d r.zone_id t

theorem storedInactive_update_position {st : DwellTimeAnalyzer} (h : storedInactive st)
    (d : String) (z : Option String) (t : ℚ) : storedInactive (update_position st d z t) := by
  unfold update_position
  cases hfind : pyFind? st.active_dwells d with
  | some r =>
      by_cases hz : z ≠ some r.zone_id
      · simp only [if_pos hz]
        by_cases ht : truthyZone z
        · simp only [ht, if_pos]
          exact storedInactive_enter_zone (storedInactive_exit_zone h d r.zone_id t) _ _ _
        · simp only [ht]
          simp only [Bool.false_eq_true, if_false]
          exact storedInactive_exit_zone h d r.zone_id t
      · simp only [if_neg hz]
        exact h
  | none =>
      by_cases ht : truthyZone z
      · simp only [ht, if_pos]
        exact storedInactive_enter_zone h _ _ _
      · simp only [ht]
        simp only [Bool.false_eq_true, if_false]
        exact h

theorem storedInactive_runDwell {st : DwellTimeAnalyzer} (h : storedInactive st)
    (ops : List DwellOp) : storedInactive (runDwell st ops) := by
  induction ops generalizing st with
  | nil => exact h
  | cons op ops ih =>
      cases op with
      | enterOp d z t => exact ih (storedInactive_enter_zone h d z t)
      | exitOp d z t => exact ih (storedInactive_exit_zone h d z t)
      | updateOp d z t => exact ih (storedInactive_update_position h d z t)

theorem activeCount_le_one_of_storedInactive {st : DwellTimeAnalyzer}
    (h : storedInactive st) (d : String) : activeCount st d ≤ 1 := by
  unfold activeCount
  have hsum : (st.dwell_records.map
      (fun p => (p.2.filter (fun r => r.device_id = d && r.is_active)).length)).sum = 0 := by
    apply List.sum_eq_zero
    intro n hn
    rcases List.mem_map.mp hn with ⟨p, hp, hlen⟩
    have : p.2.filter (fun r => r.device_id = d && r.is_active) = [] := by
      apply List.filter_eq_nil_iff.mpr
      intro r hr
      simp [h p hp r hr]
    rw [← hlen, this]
    rfl
  rw [hsum]
  cases pyFind? st.active_dwells d with
  | none => simp
  | some r => by_cases hr : r.is_active = true <;> simp [hr]

theorem pyGetD_pySet_self {κ α : Type} [DecidableEq κ] (l : List (κ × α)) (k : κ) (v d : α) :
    pyGetD (pySet l k v) k d = v := by
  unfold pyGetD
  rw [pyFind?_pySet_self]
  rfl

theorem min_dwell_time_exit_zone (st : DwellTimeAnalyzer) (d z : String) (t : ℚ) :
    (exit_zone st d z t).1.min_dwell_time = st.min_dwell_time := by
  unfold exit_zone
  cases pyFind? st.active_dwells d <;> simp only
  all_goals try split
  all_goals rfl

theorem min_dwell_time_enter_zone (st : DwellTimeAnalyzer) (d z : String) (t : ℚ) :
    (enter_zone st d z t).min_dwell_time = st.min_dwell_time := by
  unfold enter_zone
  cases hfind : pyFind? st.active_dwells d <;> simp only <;> split
  all_goals try split
  all_goals simp [min_dwell_time_exit_zone]

theorem min_dwell_time_update_position (st : DwellTimeAnalyzer) (d : String)
    (z : Option String) (t : ℚ) :
    (update_position st d z t).min_dwell_time = st.min_dwell_time := by
  unfold update_position
  cases pyFind? st.active_dwells d <;> simp only <;> split
  all_goals try split
  all_goals simp [min_dwell_time_exit_zone, min_dwell_time_enter_zone]

theorem min_dwell_time_runDwell (st : DwellTimeAnalyzer) (ops : List DwellOp) :
    (runDwell st ops).min_dwell_time = st.min_dwell_time := by
  induction ops generalizing st with
  | nil => rfl
  | cons op ops ih =>
      cases op with
      | enterOp d z t => rw [runDwell, ih, applyDwellOp, min_dwell_time_enter_zone]
      | exitOp d z t => rw [runDwell, ih, applyDwellOp, min_dwell_time_exit_zone]
      | updateOp d z t => rw [runDwell, ih, applyDwellOp, min_dwell_time_update_position]

theorem active_dwells_enter_zone (st : DwellTimeAnalyzer) (d z : String) (t : ℚ) :
    (enter_zone st d z t).active_dwells =
      pySet (match pyFind? st.active_dwells d with
             | some r => (exit_zone st d r.zone_id t).1
             | none => st).active_dwells d (freshRecord d z t) := by
  unfold enter_zone
  cases pyFind? st.active_dwells d <;> simp only <;> split <;> (try split) <;> rfl

theorem exit_zone_stores_record {st : DwellTimeAnalyzer} {d : String} {r : DwellRecord}
    (hfind : pyFind? st.active_dwells d = some r) (z : String) (t : ℚ)
    (hdur : t - r.entry_time ≥ st.min_dwell_time) :
    pyGetD (exit_zone st d z t).1.dwell_records r.zone_id [] =
      pyGetD st.dwell_records r.zone_id [] ++ [closeRecord r t] := by
  unfold exit_zone
  rw [hfind]
  simp only [closeRecord]
  rw [if_pos hdur]
  exact pyGetD_pySet_self _ _ _ _

/-- Claim C1: across every sequence of `enter_zone` / `exit_zone` /
`update_position` calls on a fresh analyzer, a device `d` has at most one
active `DwellRecord`, and `enter_zone` for a device holding an active dwell
first closes the previous record at the same timestamp (its closed copy,
with `exit_time = t`, is stored whenever its duration reaches
`min_dwell_time`) before opening the new record with `entry_time = t`. -/
theorem dwell_at_most_one_active (minD : ℚ) (ops : List DwellOp) (d zone_id : String) (t : ℚ) :
    activeCount (runDwell (initAnalyzer minD) ops) d ≤ 1 ∧
    (∀ r, pyFind? (runDwell (initAnalyzer minD) ops).active_dwells d = some r →
      pyFind? (enter_zone (runDwell (initAnalyzer minD) ops) d zone_id t).active_dwells d =
          some (freshRecord d zone_id t) ∧
      (t - r.entry_time ≥ minD →
        closeRecord r t ∈
          pyGetD (enter_zone (runDwell (initAnalyzer minD) ops) d zone_id t).dwell_records
            r.zone_id [])) := by
  set st := runDwell (initAnalyzer minD) ops with hst
  have hinv : storedInactive st :=
    storedInactive_runDwell (by intro p hp; simp [initAnalyzer] at hp) ops
  refine ⟨activeCount_le_one_of_storedInactive hinv d, ?_⟩
  intro r hfind
  constructor
  · rw [active_dwells_enter_zone, pyFind?_pySet_self]
  · intro hdur
    have hmin : st.min_dwell_time = minD := min_dwell_time_runDwell _ _
    have hstore := exit_zone_stores_record hfind r.zone_id t (by rw [hmin]; exact hdur)
    have hrec := dwell_records_enter_zone st d zone_id t
    rw [pyGetD, hrec, hfind, ← pyGetD, hstore]
    exact List.mem_append_right _ (List.mem_singleton_self _)

/-- Witness for C1 at a concrete trace: device `d` enters zone `A` at time 0;
re-entering at zone `B` at time 20 (with `min_dwell_time = 10`) closes the
previous record at time 20 and stores it. -/
theorem dwell_at_most_one_active_witness :
    activeCount (runDwell (initAnalyzer 10) [DwellOp.enterOp "d" "A" 0]) "d" ≤ 1 ∧
    pyFind? (enter_zone (runDwell (initAnalyzer 10) [DwellOp.enterOp "d" "A" 0]) "d" "B"
        20).active_dwells "d" = some (freshRecord "d" "B" 20) ∧
    closeRecord (freshRecord "d" "A" 0) 20 ∈
      pyGetD (enter_zone (runDwell (initAnalyzer 10) [DwellOp.enterOp "d" "A" 0]) "d" "B"
        20).dwell_records "A" [] := by
  have h := dwell_at_most_one_active 10 [DwellOp.enterOp "d" "A" 0] "d" "B" 20
  have hfind : pyFind? (runDwell (initAnalyzer 10)
      [DwellOp.enterOp "d" "A" 0]).active_dwells "d" = some (freshRecord "d" "A" 0) := by
    decide
  refine ⟨h.1, (h.2 _ hfind).1, ?_⟩
  have := (h.2 _ hfind).2 (by norm_num [freshRecord])
  simpa [freshRecord] using this

/-- Claim C10: `exit_zone` for a device with no active dwell returns `None`
and leaves the whole analyzer state (records, occupancy, peaks, cache)
unchanged. -/
theorem exit_zone_without_active_is_noop (st : DwellTimeAnalyzer) (d z : String) (t : ℚ)
    (h : pyFind? st.active_dwells d = none) : exit_zone st d z t = (st, none) := by
  unfold exit_zone
  rw [h]

/-- Witness for C10: on a state holding an active dwell for another device
and a populated cache, `exit_zone` for an unknown device is a no-op. -/
theorem exit_zone_without_active_is_noop_witness :
    pyFind? (runDwell (initAnalyzer 10) [DwellOp.enterOp "other" "A" 0]).active_dwells "d" =
        none ∧
    exit_zone (runDwell (initAnalyzer 10) [DwellOp.enterOp "other" "A" 0]) "d" "A" 5 =
      (runDwell (initAnalyzer 10) [DwellOp.enterOp "other" "A" 0], none) := by
  constructor
  · decide
  · exact exit_zone_without_active_is_noop _ "d" "A" 5 (by decide)

theorem stats_cache_enter_zone (st : DwellTimeAnalyzer) (d z : String) (t : ℚ) :
    (enter_zone st d z t).stats_cache =
      (match pyFind? st.active_dwells d with
       | some r => (exit_zone st d r.zone_id t).1
       | none => st).stats_cache := by
  unfold enter_zone
  cases pyFind? st.active_dwells d <;> simp only <;> split
  all_goals try split
  all_goals rfl

theorem cache_timestamp_enter_zone (st : DwellTimeAnalyzer) (d z : String) (t : ℚ) :
    (enter_zone st d z t).cache_timestamp =
      (match pyFind? st.active_dwells d with
       | some r => (exit_zone st d r.zone_id t).1
       | none => st).cache_timestamp := by
  unfold enter_zone
  cases pyFind? st.active_dwells d <;> simp only <;> split
  all_goals try split
  all_goals rfl

theorem exit_zone_clears_cache {st : DwellTimeAnalyzer} {d : String} {r : DwellRecord}
    (hfind : pyFind? st.active_dwells d = some r) (z : String) (t : ℚ) :
    (exit_zone st d z t).1.stats_cache = [] ∧
      (exit_zone st d z t).1.cache_timestamp = none := by
  unfold exit_zone
  rw [hfind]
  exact ⟨rfl, rfl⟩

theorem get_zone_statistics_miss_empty (sq : ℚ → ℚ) (st : DwellTimeAnalyzer) (z : String)
    (now : ℚ) (hc : pyMem st.stats_cache z = false)
    (hrec : (pyGetD st.dwell_records z []).isEmpty = true) :
    get_zone_statistics sq st z none none now = (st, none) := by
  unfold get_zone_statistics
  simp [hc, hrec]

theorem get_zone_statistics_miss_nonempty (sq : ℚ → ℚ) (st : DwellTimeAnalyzer) (z : String)
    (now : ℚ) (hc : pyMem st.stats_cache z = false)
    (hrec : (pyGetD st.dwell_records z []).isEmpty = false) :
    get_zone_statistics sq st z none none now =
      ({ st with
          stats_cache :=
            pySet st.stats_cache z (mkZoneStats sq st z (pyGetD st.dwell_records z [])),
          cache_timestamp := some now },
        some (mkZoneStats sq st z (pyGetD st.dwell_records z []))) := by
  unfold get_zone_statistics
  simp [hc, hrec]

theorem get_zone_statistics_hit (sq : ℚ → ℚ) (st : DwellTimeAnalyzer) (z : String)
    (now ts : ℚ) (hmem : pyMem st.stats_cache z = true) (hts : st.cache_timestamp = some ts)
    (hfresh : tdSeconds (now - ts) < 60) :
    get_zone_statistics sq st z none none now = (st, pyFind? st.stats_cache z) := by
  unfold get_zone_statistics
  simp [hmem, hts, hfresh]

theorem get_zone_statistics_stale_nonempty (sq : ℚ → ℚ) (st : DwellTimeAnalyzer) (z : String)
    (now ts : ℚ) (hmem : pyMem st.stats_cache z = true) (hts : st.cache_timestamp = some ts)
    (hstale : ¬ tdSeconds (now - ts) < 60)
    (hrec : (pyGetD st.dwell_records z []).isEmpty = false) :
    get_zone_statistics sq st z none none now =
      ({ st with
          stats_cache :=
            pySet st.stats_cache z (mkZoneStats sq st z (pyGetD st.dwell_records z [])),
          cache_timestamp := some now },
        some (mkZoneStats sq st z (pyGetD st.dwell_records z []))) := by
  unfold get_zone_statistics
  simp [hmem, hts, hstale, hrec]

/-- `mkZoneStats` does not read the cache fields. -/
theorem mkZoneStats_cache_free (sq : ℚ → ℚ) (st : DwellTimeAnalyzer) (z : String)
    (records : List DwellRecord) (c : List (String × ZoneStatistics)) (ts : Option ℚ) :
    mkZoneStats sq { st with stats_cache := c, cache_timestamp := ts } z records =
      mkZoneStats sq st z records := rfl

/-- Claim C9, amended: the cache is cleared exactly by exits: `exit_zone` on a
device with an active dwell clears the statistics cache (so a following
`get_zone_statistics` recomputes), and `enter_zone` on such a device clears it
through its synthesized exit; but `enter_zone` for a device with no active
dwell leaves the cache untouched.  From a cleared cache, two
`get_zone_statistics` calls with no intervening mutation return the same
result. -/
theorem cache_invalidation_behavior (sq : ℚ → ℚ) (st : DwellTimeAnalyzer)
    (d zone_id : String) (t n1 n2 : ℚ) :
    (∀ r, pyFind? st.active_dwells d = some r →
      (exit_zone st d zone_id t).1.stats_cache = [] ∧
      (enter_zone st d zone_id t).stats_cache = []) ∧
    (pyFind? st.active_dwells d = none →
      (enter_zone st d zone_id t).stats_cache = st.stats_cache ∧
      (enter_zone st d zone_id t).cache_timestamp = st.cache_timestamp) ∧
    (st.stats_cache = [] →
      (get_zone_statistics sq (get_zone_statistics sq st zone_id none none n1).1
          zone_id none none n2).2 =
        (get_zone_statistics sq st zone_id none none n1).2) := by
  refine ⟨?_, ?_, ?_⟩
  · intro r hfind
    refine ⟨(exit_zone_clears_cache hfind zone_id t).1, ?_⟩
    rw [stats_cache_enter_zone, hfind]
    exact (exit_zone_clears_cache hfind r.zone_id t).1
  · intro hfind
    rw [stats_cache_enter_zone, cache_timestamp_enter_zone, hfind]
    exact ⟨rfl, rfl⟩
  · intro hc
    have hmiss1 : pyMem st.stats_cache zone_id = false := by
      rw [hc]
      rfl
    by_cases hrec : (pyGetD st.dwell_records zone_id []).isEmpty
    · rw [get_zone_statistics_miss_empty sq st zone_id n1 hmiss1 hrec]
      rw [get_zone_statistics_miss_empty sq st zone_id n2 hmiss1 hrec]
    · have hrec' : (pyGetD st.dwell_records zone_id []).isEmpty = false := by
        simpa using hrec
      rw [get_zone_statistics_miss_nonempty sq st zone_id n1 hmiss1 hrec']
      set stats := mkZoneStats sq st zone_id (pyGetD st.dwell_records zone_id []) with hstats
      set st1 : DwellTimeAnalyzer :=
        { st with stats_cache := pySet st.stats_cache zone_id stats,
                  cache_timestamp := some n1 } with hst1
      have hmem : pyMem st1.stats_cache zone_id = true := by
        unfold pyMem
        rw [hst1]
        simp only
        rw [pyFind?_pySet_self]
        rfl
      by_cases hfresh : tdSeconds (n2 - n1) < 60
      · rw [get_zone_statistics_hit sq st1 zone_id n2 n1 hmem rfl hfresh]
        simp only [hst1]
        rw [pyFind?_pySet_self]
      · have hrec1 : (pyGetD st1.dwell_records zone_id []).isEmpty = false := hrec'
        rw [get_zone_statistics_stale_nonempty sq st1 zone_id n2 n1 hmem rfl hfresh hrec1]
        simp only [hst1]
        rfl

/-- Witness for the amended C9 at concrete states: an explicit exit clears the
cache, an `enter_zone` of a fresh device keeps it, and a repeated statistics
query (second call after cache expiry) returns the same result. -/
theorem cache_invalidation_behavior_witness :
    ((exit_zone (runDwell (initAnalyzer 10) [DwellOp.enterOp "d1" "A" 0]) "d1" "A"
        20).1.stats_cache = [] ∧
      (enter_zone (runDwell (initAnalyzer 10) [DwellOp.enterOp "d1" "A" 0]) "d1" "A"
        20).stats_cache = []) ∧
    ((enter_zone (runDwell (initAnalyzer 10) []) "d2" "B" 1).stats_cache =
        (runDwell (initAnalyzer 10) []).stats_cache) ∧
    (get_zone_statistics (fun q => q)
        (get_zone_statistics (fun q => q) (runDwell (initAnalyzer 10) []) "A" none none
          30).1 "A" none none 100).2 =
      (get_zone_statistics (fun q => q) (runDwell (initAnalyzer 10) []) "A" none none
        30).2 := by
  have h1 := cache_invalidation_behavior (fun q => q)
    (runDwell (initAnalyzer 10) [DwellOp.enterOp "d1" "A" 0]) "d1" "A" 20 0 0
  have h2 := cache_invalidation_behavior (fun q => q) (runDwell (initAnalyzer 10) [])
    "d2" "B" 1 30 100
  refine ⟨h1.1 (freshRecord "d1" "A" 0) (by decide), (h2.2.1 (by decide)).1, ?_⟩
  exact h2.2.2 rfl

/-- Base state for the C9 counterexample: device `d1` dwells in zone `A` from
time 0 to 20 (stored, since 20 ≥ `min_dwell_time` = 10). -/
def cacheStaleBase : DwellTimeAnalyzer :=
  runDwell (initAnalyzer 10) [DwellOp.enterOp "d1" "A" 0, DwellOp.exitOp "d1" "A" 20]

/-- State of the C9 counterexample after one statistics query at time 30 has
populated the cache. -/
def cacheStaleCached : DwellTimeAnalyzer :=
  (get_zone_statistics (fun q => q) cacheStaleBase "A" none none 30).1

/-- Counterexample to C9 as stated: an `enter_zone` call (device `d2`, no
active dwell) is a mutation of the dwell-time state but does *not* invalidate
the populated statistics cache. -/
theorem enter_zone_does_not_invalidate_cache :
    (enter_zone cacheStaleCached "d2" "B" 40).stats_cache = cacheStaleCached.stats_cache ∧
      cacheStaleCached.stats_cache ≠ [] := by
  constructor
  · rw [stats_cache_enter_zone]
    norm_num +decide [cacheStaleCached, cacheStaleBase, runDwell, applyDwellOp, enter_zone,
      exit_zone, closeRecord, freshRecord, initAnalyzer, pySet, pyErase, pyFind?, pyGetD,
      pyMem, get_zone_statistics]
  · norm_num +decide [cacheStaleCached, cacheStaleBase, runDwell, applyDwellOp, enter_zone,
      exit_zone, closeRecord, freshRecord, initAnalyzer, pySet, pyErase, pyFind?, pyGetD,
      pyMem, get_zone_statistics, tdSeconds]

end DwellTimeAnalyzer

/-! ## Flow analyzer (`src/analysis/flow_analyzer.py`)

Only the transition bookkeeping consumed by the claims is embedded: the
transition list, the sparse flow matrix, the per-pair duration samples, the
per-device path, and the per-device zone-entry dictionary used to derive
transitions; the numpy grids are not needed by any claim. -/

/-- `FlowTransition` dataclass. -/
structure FlowTransition where
  from_zone : String
  to_zone : String
  device_id : String
  timestamp : ℚ
  duration : ℚ
deriving DecidableEq, Repr

/-- Mutable state of `FlowAnalyzer` (grid fields omitted). -/
structure FlowAnalyzer where
  transitions : List FlowTransition
  flow_matrix : List ((String × String) × ℕ)
  transition_durations : List ((String × String) × List ℚ)
  device_paths : List (String × List String)
  device_zone_entry : List (String × List (String × ℚ))
deriving DecidableEq, Repr

namespace FlowAnalyzer

/-- Fresh analyzer as built by `__init__`. -/
def initFlow : FlowAnalyzer :=
  { transitions := []
    flow_matrix := []
    transition_durations := []
    device_paths := []
    device_zone_entry := [] }

/-- `_calculate_transition_duration`: time since the device entered
`from_zone`, floored at 0; a default of 5 seconds when there is no history. -/
def calculate_transition_duration (st : FlowAnalyzer) (device_id from_zone : String)
    (t : ℚ) : ℚ :=
  match pyFind? (pyGetD st.device_zone_entry device_id []) from_zone with
  | some entry => max 0 (t - entry)
  | none => 5

/-- `add_transition`: record one transition (no-op for `from_zone = to_zone`);
`duration = none` models Python's `duration=None` auto-computation.  The
`device_paths` update appends `from_zone` when the device's path is absent or
does not already end in it, then appends `to_zone`. -/
def add_transition (st : FlowAnalyzer) (device_id from_zone to_zone : String) (t : ℚ)
    (duration : Option ℚ) : FlowAnalyzer :=
  if from_zone = to_zone then st
  else
    let dur :=
      match duration with
      | some x => x
      | none => calculate_transition_duration st device_id from_zone t
    let tr : FlowTransition :=
      { from_zone := from_zone, to_zone := to_zone, device_id := device_id,
        timestamp := t, duration := dur }
    let st :=
      { st with
          transitions := st.transitions ++ [tr]
          flow_matrix :=
            pySet st.flow_matrix (from_zone, to_zone)
              (pyGetD st.flow_matrix (from_zone, to_zone) 0 + 1)
          transition_durations :=
            pySet st.transition_durations (from_zone, to_zone)
              (pyGetD st.transition_durations (from_zone, to_zone) [] ++ [dur]) }
    let path := pyGetD st.device_paths device_id []
    let path :=
      if !(pyFind? st.device_paths device_id).isSome || path.getLast? ≠ some from_zone then
        path ++ [from_zone]
      else path
    let path := path ++ [to_zone]
    { st with device_paths := pySet st.device_paths device_id path }

/-- `update_device_zone`: diff the device's previously recorded zone (the
first entry of its zone-entry dict different from the new zone) against the
new zone; on a change, record a transition whose duration is the time since
the previous zone was entered. -/
def update_device_zone (st : FlowAnalyzer) (device_id : String) (zone_id : Option String)
    (t : ℚ) : FlowAnalyzer :=
  match zone_id with
  | none => st
  | some zid =>
      if zid = "" then st
      else
        let dz := pyGetD st.device_zone_entry device_id []
        let prev := dz.find? (fun p => p.1 ≠ zid)
        let dz :=
          match prev with
          | some p => pyErase dz p.1
          | none => dz
        let dz := pySet dz zid t
        let st := { st with device_zone_entry := pySet st.device_zone_entry device_id dz }
        match prev with
        | some p =>
            if p.1 ≠ "" ∧ p.1 ≠ zid then
              add_transition st device_id p.1 zid t (some (t - p.2))
            else st
        | none => st

/-- One flow-analyzer call. -/
inductive FlowOp where
  | addTransitionOp (device_id from_zone to_zone : String) (t : ℚ) (duration : Option ℚ)
  | updateZoneOp (device_id : String) (zone_id : Option String) (t : ℚ)

/-- Apply one flow-analyzer call. -/
def applyFlowOp (st : FlowAnalyzer) : FlowOp → FlowAnalyzer
  | .addTransitionOp d fz tz t dur => add_transition st d fz tz t dur
  | .updateZoneOp d z t => update_device_zone st d z t

/-- Run a sequence of flow-analyzer calls. -/
def runFlow (st : FlowAnalyzer) : List FlowOp → FlowAnalyzer
  | [] => st
  | op :: ops => runFlow (applyFlowOp st op) ops

/-- First half of `predict_next_zone`: one pass over the flow-matrix items
collecting the destination-count dict and the running total for the given
source zone. -/
def predict_collect (st : FlowAnalyzer) (current_zone : String) :
    List (String × ℕ) × ℕ :=
  st.flow_matrix.foldl
    (fun acc p => if p.1.1 = current_zone then (pySet acc.1 p.1.2 p.2, acc.2 + p.2) else acc)
    ([], 0)

/-- Second half of `predict_next_zone`: the full probability list
(`count / total` per destination), stably sorted by descending probability:
the value of Python's `predictions` variable just before the `[:n_predictions]`
truncation. -/
def predict_ranked (st : FlowAnalyzer) (current_zone : String) : List (String × ℚ) :=
  let c := predict_collect st current_zone
  if c.2 = 0 then []
  else
    pySorted (fun a b => decide (a.2 > b.2))
      (c.1.map (fun q => (q.1, (q.2 : ℚ) / (c.2 : ℚ))))

/-- `predict_next_zone`: the ranked probability list truncated to
`n_predictions` (default 3). -/
def predict_next_zone (st : FlowAnalyzer) (current_zone : String) (n_predictions : ℕ) :
    List (String × ℚ) :=
  (predict_ranked st current_zone).take n_predictions

/-- Claim C6: starting from a fresh analyzer, `update_device_zone` on the
strictly alternating zone sequence A, B, A, B at times `t1 < t2 < t3 < t4`
produces exactly the three transitions A→B, B→A, A→B with durations
`t2 - t1`, `t3 - t2`, `t4 - t3`. -/
theorem alternating_zones_three_transitions (d A B : String) (t1 t2 t3 t4 : ℚ)
    (hA : A ≠ "") (hB : B ≠ "") (hAB : A ≠ B) (_h12 : t1 < t2) (_h23 : t2 < t3)
    (_h34 : t3 < t4) :
    (update_device_zone
      (update_device_zone
        (update_device_zone
          (update_device_zone initFlow d (some A) t1) d (some B) t2) d (some A) t3)
      d (some B) t4).transitions =
      [{ from_zone := A, to_zone := B, device_id := d, timestamp := t2, duration := t2 - t1 },
       { from_zone := B, to_zone := A, device_id := d, timestamp := t3, duration := t3 - t2 },
       { from_zone := A, to_zone := B, device_id := d, timestamp := t4, duration := t4 - t3 }] := by
  have hBA : B ≠ A := hAB.symm
  simp [update_device_zone, add_transition, calculate_transition_duration, initFlow,
    pySet, pyErase, pyFind?, pyGetD, pyMem, hA, hB, hAB, hBA, List.find?]

/-- Witness for C6 at concrete inputs. -/
theorem alternating_zones_three_transitions_witness :
    ("A" : String) ≠ "" ∧ ("B" : String) ≠ "" ∧ ("A" : String) ≠ "B" ∧
      (1 : ℚ) < 2 ∧ (2 : ℚ) < 5 ∧ (5 : ℚ) < 9 ∧
    (update_device_zone
      (update_device_zone
        (update_device_zone
          (update_device_zone initFlow "dev" (some "A") 1) "dev" (some "B") 2) "dev"
        (some "A") 5)
      "dev" (some "B") 9).transitions =
      [{ from_zone := "A", to_zone := "B", device_id := "dev", timestamp := 2, duration := 1 },
       { from_zone := "B", to_zone := "A", device_id := "dev", timestamp := 5, duration := 3 },
       { from_zone := "A", to_zone := "B", device_id := "dev", timestamp := 9, duration := 4 }] := by
  refine ⟨by decide, by decide, by decide, by norm_num, by norm_num, by norm_num, ?_⟩
  have h := alternating_zones_three_transitions "dev" "A" "B" 1 2 5 9 (by decide) (by decide)
    (by decide) (by norm_num) (by norm_num) (by norm_num)
  rw [h]
  norm_num

/-- Keys of the sparse flow matrix are pairwise distinct (dict semantics). -/
def nodupFM (st : FlowAnalyzer) : Prop :=
  (st.flow_matrix.map Prod.fst).Nodup

theorem keys_pySet_subset {κ α : Type} [DecidableEq κ] {l : List (κ × α)} {k x : κ} {v : α}
    (h : x ∈ (pySet l k v).map Prod.fst) : x ∈ l.map Prod.fst ∨ x = k := by
  rcases List.mem_map.mp h with ⟨q, hq, hx⟩
  rcases mem_pySet hq with h1 | h1
  · right
    rw [← hx, h1]
  · left
    exact hx ▸ List.mem_map_of_mem Prod.fst h1

theorem pyKeys_nodup_pySet {κ α : Type} [DecidableEq κ] (l : List (κ × α)) (k : κ) (v : α)
    (h : (l.map Prod.fst).Nodup) : ((pySet l k v).map Prod.fst).Nodup := by
  induction l with
  | nil => simp [pySet]
  | cons p rest ih =>
      obtain ⟨k', v'⟩ := p
      simp only [List.map_cons, List.nodup_cons] at h
      by_cases hk : k' = k
      · simp only [pySet, if_pos hk, List.map_cons, List.nodup_cons]
        exact ⟨h.1, h.2⟩
      · simp only [pySet, if_neg hk, List.map_cons, List.nodup_cons]
        refine ⟨?_, ih h.2⟩
        intro hmem
        rcases keys_pySet_subset hmem with h1 | h1
        · exact h.1 h1
        · exact hk h1

theorem flow_matrix_add_transition (st : FlowAnalyzer) (d fz tz : String) (t : ℚ)
    (dur : Option ℚ) :
    (add_transition st d fz tz t dur).flow_matrix =
      if fz = tz then st.flow_matrix
      else pySet st.flow_matrix (fz, tz) (pyGetD st.flow_matrix (fz, tz) 0 + 1) := by
  unfold add_transition
  split <;> rfl

theorem nodupFM_add_transition {st : FlowAnalyzer} (h : nodupFM st) (d fz tz : String)
    (t : ℚ) (dur : Option ℚ) : nodupFM (add_transition st d fz tz t dur) := by
  unfold nodupFM
  rw [flow_matrix_add_transition]
  split
  · exact h
  · exact pyKeys_nodup_pySet _ _ _ h

theorem nodupFM_update_device_zone {st : FlowAnalyzer} (h : nodupFM st) (d : String)
    (z : Option String) (t : ℚ) : nodupFM (update_device_zone st d z t) := by
  unfold update_device_zone
  cases z with
  | none => exact h
  | some zid =>
      by_cases hz : zid = ""
      · simpa [hz] using h
      · simp only [if_neg hz]
        cases hprev : (pyGetD st.device_zone_entry d []).find? (fun p => p.1 ≠ zid) with
        | none => exact h
        | some p =>
            simp only
            split
            · unfold nodupFM
              rw [flow_matrix_add_transition]
              split
              · exact h
              · exact pyKeys_nodup_pySet _ _ _ h
            · exact h

theorem nodupFM_runFlow (ops : List FlowOp) : nodupFM (runFlow initFlow ops) := by
  have h0 : nodupFM initFlow := by simp [nodupFM, initFlow]
  suffices hstep : ∀ (st : FlowAnalyzer), nodupFM st → nodupFM (runFlow st ops) from
    hstep initFlow h0
  induction ops with
  | nil => intro st h; exact h
  | cons op ops ih =>
      intro st h
      cases op with
      | addTransitionOp d fz tz t dur =>
          exact ih _ (nodupFM_add_transition h d fz tz t dur)
      | updateZoneOp d z t =>
          exact ih _ (nodupFM_update_device_zone h d z t)

theorem pySet_of_not_mem {κ α : Type} [DecidableEq κ] {l : List (κ × α)} {k : κ} (v : α)
    (h : pyMem l k = false) : pySet l k v = l ++ [(k, v)] := by
  induction l with
  | nil => rfl
  | cons p rest ih =>
      obtain ⟨k', v'⟩ := p
      unfold pyMem at h
      by_cases hk : k' = k
      · rw [pyFind?_cons, if_pos hk] at h
        simp at h
      · rw [pyFind?_cons, if_neg hk] at h
        simp only [pySet, if_neg hk, List.cons_append, List.cons.injEq, true_and]
        exact ih h

theorem pyMem_append_single {κ α : Type} [DecidableEq κ] {l : List (κ × α)} {k x : κ} {v : α}
    (h : pyMem l x = false) (hxk : x ≠ k) : pyMem (l ++ [(k, v)]) x = false := by
  induction l with
  | nil => simp [pyMem, pyFind?, Ne.symm hxk]
  | cons p rest ih =>
      obtain ⟨k', v'⟩ := p
      unfold pyMem at h ⊢
      by_cases hk : k' = x
      · rw [pyFind?_cons, if_pos hk] at h
        simp at h
      · rw [pyFind?_cons, if_neg hk] at h
        rw [List.cons_append, pyFind?_cons, if_neg hk]
        exact ih h

theorem collect_go (current_zone : String) (l : List ((String × String) × ℕ)) :
    ∀ (acc : List (String × ℕ)) (s : ℕ),
      (l.map Prod.fst).Nodup →
      (∀ p ∈ l, p.1.1 = current_zone → pyMem acc p.1.2 = false) →
      (acc.map Prod.snd).sum = s →
      ((l.foldl
          (fun a p =>
            if p.1.1 = current_zone then (pySet a.1 p.1.2 p.2, a.2 + p.2) else a)
          (acc, s)).1.map Prod.snd).sum =
        (l.foldl
          (fun a p =>
            if p.1.1 = current_zone then (pySet a.1 p.1.2 p.2, a.2 + p.2) else a)
          (acc, s)).2 := by
  induction l with
  | nil => intro acc s _ _ hs; simpa using hs
  | cons p rest ih =>
      intro acc s hnd hdis hs
      simp only [List.map_cons, List.nodup_cons] at hnd
      by_cases hp : p.1.1 = current_zone
      · have hnew : pyMem acc p.1.2 = false := hdis p (List.mem_cons_self p rest) hp
        simp only [List.foldl_cons, if_pos hp]
        apply ih (pySet acc p.1.2 p.2) (s + p.2) hnd.2
        · intro q hq hqz
          have hq1 : q.1 ≠ p.1 := by
            intro hEq
            exact hnd.1 (hEq ▸ List.mem_map_of_mem Prod.fst hq)
          have hq2 : q.1.2 ≠ p.1.2 := by
            intro hEq
            apply hq1
            have : q.1.1 = p.1.1 := by rw [hqz, hp]
            exact Prod.ext this hEq
          rw [pySet_of_not_mem p.2 hnew]
          exact pyMem_append_single (hdis q (List.mem_cons_of_mem p hq) hqz) hq2
        · rw [pySet_of_not_mem p.2 hnew]
          simp [hs]
      · simp only [List.foldl_cons, if_neg hp]
        exact ih acc s hnd.2 (fun q hq hqz => hdis q (List.mem_cons_of_mem p hq) hqz) hs

theorem predict_collect_sum {st : FlowAnalyzer} (h : nodupFM st) (current_zone : String) :
    ((predict_collect st current_zone).1.map Prod.snd).sum =
      (predict_collect st current_zone).2 := by
  unfold predict_collect
  exact collect_go current_zone st.flow_matrix [] 0 h (by intro p _ _; rfl) rfl

theorem list_sum_map_div (l : List ℚ) (c : ℚ) :
    (l.map (· / c)).sum = l.sum / c := by
  induction l with
  | nil => simp
  | cons a rest ih => simp [ih, add_div]

/-- Claim C8, amended: the full ranked probability list built by
`predict_next_zone` (before its `[:n_predictions]` truncation) assigns
`count / total` to each destination and sums to exactly 1 whenever the source
zone has a recorded outgoing transition; the returned list is the
`n_predictions`-prefix of that ranking, so the *returned* probabilities sum
to 1 only when there are at most `n_predictions` distinct destinations. -/
theorem predict_probabilities_sum_one (ops : List FlowOp) (current_zone : String)
    (n_predictions : ℕ)
    (h : (predict_collect (runFlow initFlow ops) current_zone).2 ≠ 0) :
    ((predict_ranked (runFlow initFlow ops) current_zone).map Prod.snd).sum = 1 ∧
    predict_next_zone (runFlow initFlow ops) current_zone n_predictions =
      (predict_ranked (runFlow initFlow ops) current_zone).take n_predictions := by
  refine ⟨?_, rfl⟩
  set st := runFlow initFlow ops with hst
  have hnd : nodupFM st := nodupFM_runFlow ops
  unfold predict_ranked
  simp only [if_neg h]
  have hperm :
      (pySorted (fun a b => decide (a.2 > b.2))
          ((predict_collect st current_zone).1.map
            (fun q => (q.1, (q.2 : ℚ) / ((predict_collect st current_zone).2 : ℚ))))).Perm
        ((predict_collect st current_zone).1.map
          (fun q => (q.1, (q.2 : ℚ) / ((predict_collect st current_zone).2 : ℚ)))) :=
    pySorted_perm _ _
  rw [List.Perm.sum_eq (hperm.map Prod.snd)]
  rw [List.map_map]
  have hcomp :
      (Prod.snd ∘ fun q : String × ℕ =>
          (q.1, (q.2 : ℚ) / ((predict_collect st current_zone).2 : ℚ))) =
        (fun q : String × ℕ => ((q.2 : ℚ) / ((predict_collect st current_zone).2 : ℚ))) := by
    funext q
    rfl
  rw [hcomp]
  have hmaps :
      ((predict_collect st current_zone).1.map
          (fun q : String × ℕ => ((q.2 : ℚ) / ((predict_collect st current_zone).2 : ℚ)))) =
        (((predict_collect st current_zone).1.map (fun q : String × ℕ => ((q.2 : ℚ)))).map
          (· / ((predict_collect st current_zone).2 : ℚ))) := by
    rw [List.map_map]
    rfl
  rw [hmaps, list_sum_map_div]
  have hcast :
      ((predict_collect st current_zone).1.map (fun q : String × ℕ => ((q.2 : ℚ)))) =
        (((predict_collect st current_zone).1.map Prod.snd).map (fun n : ℕ => (n : ℚ))) := by
    rw [List.map_map]
    rfl
  rw [hcast, ← Nat.cast_list_sum, predict_collect_sum hnd]
  exact div_self (by exact_mod_cast h)

/-- Witness for the amended C8: a single recorded transition A→B gives the
full ranking probability sum 1. -/
theorem predict_probabilities_sum_one_witness :
    (predict_collect
        (runFlow initFlow [FlowOp.addTransitionOp "dev" "A" "B" 1 (some 2)]) "A").2 ≠ 0 ∧
    ((predict_ranked
        (runFlow initFlow [FlowOp.addTransitionOp "dev" "A" "B" 1 (some 2)]) "A").map
      Prod.snd).sum = 1 := by
  have h : (predict_collect
      (runFlow initFlow [FlowOp.addTransitionOp "dev" "A" "B" 1 (some 2)]) "A").2 ≠ 0 := by
    decide
  exact ⟨h, (predict_probabilities_sum_one [FlowOp.addTransitionOp "dev" "A" "B" 1 (some 2)]
    "A" 3 h).1⟩

/-- Flow state with four distinct destinations recorded out of zone `A`. -/
def fourDestinations : FlowAnalyzer :=
  runFlow initFlow
    [FlowOp.addTransitionOp "dev" "A" "B1" 1 (some 1),
     FlowOp.addTransitionOp "dev" "A" "B2" 2 (some 1),
     FlowOp.addTransitionOp "dev" "A" "B3" 3 (some 1),
     FlowOp.addTransitionOp "dev" "A" "B4" 4 (some 1)]

/-- Counterexample to C8 as stated: with four distinct destinations out of
`A`, the probabilities actually returned by `predict_next_zone` (default
`n_predictions = 3`) sum to 3/4, not 1. -/
theorem predict_next_zone_truncated_sum :
    ((predict_next_zone fourDestinations "A" 3).map Prod.snd).sum = 3 / 4 ∧
      (3 : ℚ) / 4 ≠ 1 := by
  constructor
  · norm_num +decide [fourDestinations, runFlow, applyFlowOp, add_transition, initFlow,
      predict_next_zone, predict_ranked, predict_collect, pySorted, insortBefore, pySet,
      pyErase, pyFind?, pyGetD, pyMem, List.foldl]
  · norm_num

end FlowAnalyzer

/-! ## Trajectory analyzer (`src/analysis/trajectory_analyzer.py`)

`numpy`'s floating `sqrt` and `arctan2` are abstracted as parameters `sq`
and `at2`. -/

/-- `TrajectoryPoint` dataclass. -/
structure TrajectoryPoint where
  device_id : String
  timestamp : ℚ
  position : ℚ × ℚ
  zone_id : Option String
  confidence : ℚ
  speed : Option ℚ := none
  direction : Option ℚ := none
deriving DecidableEq, Repr

/-- `Trajectory` dataclass. -/
structure Trajectory where
  device_id : String
  start_time : ℚ
  end_time : ℚ
  points : List TrajectoryPoint
  total_distance : ℚ := 0
  avg_speed : ℚ := 0
  max_speed : ℚ := 0
  zones_visited : List String := []
  dwell_times : List (String × ℚ) := []
deriving DecidableEq, Repr

/-- The analyzer's `self.stats` dict. -/
structure TrajGlobalStats where
  total_trajectories : ℕ
  avg_trajectory_length : ℚ
  avg_speed : ℚ
  popular_zones : List (String × ℕ)
deriving DecidableEq, Repr

/-- Mutable state of `TrajectoryAnalyzer`. -/
structure TrajectoryAnalyzer where
  smoothing_window : ℕ
  min_points : ℕ
  trajectories : List (String × Trajectory)
  active_points : List (String × List TrajectoryPoint)
  stats : TrajGlobalStats
deriving DecidableEq, Repr

namespace TrajectoryAnalyzer

/-- Fresh analyzer as built by `__init__` (defaults: window 5, `min_points` 10). -/
def initTraj (smoothing_window min_points : ℕ) : TrajectoryAnalyzer :=
  { smoothing_window := smoothing_window
    min_points := min_points
    trajectories := []
    active_points := []
    stats :=
      { total_trajectories := 0, avg_trajectory_length := 0, avg_speed := 0,
        popular_zones := [] } }

/-- `_calculate_motion_attributes`: set `speed` / `direction` of the latest
point from the last two points (no-op when the time delta is not positive).
`sq x` stands for `np.sqrt x` applied to the squared distance, `at2 dy dx`
for `np.arctan2(dy, dx)`. -/
def calc_motion (sq : ℚ → ℚ) (at2 : ℚ → ℚ → ℚ) (points : List TrajectoryPoint) :
    List TrajectoryPoint :=
  match points.dropLast.getLast?, points.getLast? with
  | some p1, some p2 =>
      let dx := p2.position.1 - p1.position.1
      let dy := p2.position.2 - p1.position.2
      let dist := sq (dx ^ 2 + dy ^ 2)
      let time_diff := p2.timestamp - p1.timestamp
      if time_diff > 0 then
        points.dropLast ++
          [{ p2 with speed := some (dist / time_diff), direction := some (at2 dy dx) }]
      else points
  | _, _ => points

/-- `_smooth_trajectory`: overwrite the latest point's position with the mean
of the last `window` positions (no-op below the window size). -/
def smooth_trajectory (window : ℕ) (points : List TrajectoryPoint) :
    List TrajectoryPoint :=
  if points.length < window then points
  else
    match points.getLast? with
    | none => points
    | some lastPt =>
        let windowPts := points.drop (points.length - window)
        let sx := (windowPts.map (·.position.1)).sum / (windowPts.length : ℚ)
        let sy := (windowPts.map (·.position.2)).sum / (windowPts.length : ℚ)
        points.dropLast ++ [{ lastPt with position := (sx, sy) }]

/-- `add_position`: append a fresh point to the device's active buffer, then
recompute motion attributes (when ≥ 2 points) and apply trailing smoothing
(when the buffer reaches the window size). -/
def add_position (sq : ℚ → ℚ) (at2 : ℚ → ℚ → ℚ) (st : TrajectoryAnalyzer)
    (device_id : String) (position : ℚ × ℚ) (t : ℚ) (zone_id : Option String)
    (confidence : ℚ) : TrajectoryAnalyzer :=
  let point : TrajectoryPoint :=
    { device_id := device_id, timestamp := t, position := position, zone_id := zone_id,
      confidence := confidence }
  let pts := pyGetD st.active_points device_id [] ++ [point]
  let pts := if pts.length > 1 then calc_motion sq at2 pts else pts
  let pts := if pts.length ≥ st.smoothing_window then smooth_trajectory st.smoothing_window pts
    else pts
  { st with active_points := pySet st.active_points device_id pts }

/-- The zone/dwell accumulation loop of `_calculate_trajectory_stats`:
state is (zones_visited, dwell_times, current_zone, zone_entry_time). -/
def zonesFold :
    List TrajectoryPoint →
      List String × List (String × ℚ) × Option String × Option ℚ →
      List String × List (String × ℚ) × Option String × Option ℚ
  | [], acc => acc
  | point :: rest, (zones, dwell, cz, entry) =>
      if point.zone_id ≠ cz then
        let dwell :=
          if truthyZone cz ∧ entry.isSome then
            pySet dwell (cz.getD "")
              (pyGetD dwell (cz.getD "") 0 + (point.timestamp - entry.getD 0))
          else dwell
        let zones :=
          if truthyZone point.zone_id ∧ ¬ point.zone_id.getD "" ∈ zones then
            zones ++ [point.zone_id.getD ""]
          else zones
        zonesFold rest (zones, dwell, point.zone_id, some point.timestamp)
      else zonesFold rest (zones, dwell, cz, entry)

/-- `_calculate_trajectory_stats`: total path length, speed statistics, and
the per-zone visit/dwell breakdown of a trajectory. -/
def calc_trajectory_stats (sq : ℚ → ℚ) (traj : Trajectory) : Trajectory :=
  let points := traj.points
  let total_distance :=
    ((points.zip points.tail).map
      (fun pr =>
        sq ((pr.2.position.1 - pr.1.position.1) ^ 2 +
          (pr.2.position.2 - pr.1.position.2) ^ 2))).sum
  let speeds := points.tail.filterMap (·.speed)
  let traj := { traj with total_distance := total_distance }
  let traj :=
    if speeds.isEmpty then traj
    else { traj with avg_speed := npMean speeds, max_speed := npMax speeds }
  let folded := zonesFold points ([], [], none, none)
  let dwell :=
    match folded.2.2.1, folded.2.2.2 with
    | some cz, some entry =>
        if truthyZone (some cz) then
          pySet folded.2.1 cz
            (pyGetD folded.2.1 cz 0 +
              (((points.getLast?.map (·.timestamp)).getD 0) - entry))
        else folded.2.1
    | _, _ => folded.2.1
  { traj with zones_visited := folded.1, dwell_times := dwell }

/-- `_update_global_stats`. -/
def update_global_stats (st : TrajectoryAnalyzer) : TrajectoryAnalyzer :=
  if st.trajectories.isEmpty then st
  else
    let ts : List Trajectory := st.trajectories.map Prod.snd
    let stats :=
      { st.stats with
          total_trajectories := st.trajectories.length,
          avg_trajectory_length := npMean (ts.map (fun tr : Trajectory => tr.total_distance)) }
    let speeds := (ts.map (fun tr : Trajectory => tr.avg_speed)).filter (fun s => s > 0)
    let stats := if speeds.isEmpty then stats else { stats with avg_speed := npMean speeds }
    let zone_visits :=
      ts.foldl
        (fun acc tr => tr.zones_visited.foldl (fun a z => pySet a z (pyGetD a z 0 + 1)) acc)
        []
    let stats := { stats with popular_zones := zone_visits }
    { st with stats := stats }

/-- `finalize_trajectory`: `None` when the device has no buffer or fewer than
`min_points` points (buffer kept); otherwise build the trajectory, compute its
statistics, store it, clear the buffer and update the global statistics. -/
def finalize_trajectory (sq : ℚ → ℚ) (st : TrajectoryAnalyzer) (device_id : String) :
    TrajectoryAnalyzer × Option Trajectory :=
  match pyFind? st.active_points device_id with
  | none => (st, none)
  | some points =>
      if points.length < st.min_points then (st, none)
      else
        let traj : Trajectory :=
          { device_id := device_id
            start_time := (points.head?.map (·.timestamp)).getD 0
            end_time := (points.getLast?.map (·.timestamp)).getD 0
            points := points }
        let traj := calc_trajectory_stats sq traj
        let st :=
          { st with
              trajectories := pySet st.trajectories device_id traj,
              active_points := pyErase st.active_points device_id }
        (update_global_stats st, some traj)

/-- Claim C7: with a buffer of fewer than `min_points` points (e.g. 9 against
a minimum of 10) `finalize_trajectory` yields no trajectory and leaves the
state unchanged — a `none` result, not an error; with exactly `min_points`
(positive) points it yields a trajectory. -/
theorem finalize_trajectory_min_points (sq : ℚ → ℚ) (st : TrajectoryAnalyzer) (d : String)
    (pts : List TrajectoryPoint) (hfind : pyFind? st.active_points d = some pts) :
    (pts.length < st.min_points → finalize_trajectory sq st d = (st, none)) ∧
    (pts.length = st.min_points → 0 < st.min_points →
      (finalize_trajectory sq st d).2.isSome = true) := by
  constructor
  · intro hlt
    unfold finalize_trajectory
    simp only [hfind, if_pos hlt]
  · intro heq _hpos
    unfold finalize_trajectory
    simp only [hfind]
    rw [if_neg (by rw [heq]; exact lt_irrefl _)]
    rfl

/-- A throwaway raw point for the C7 witness. -/
def plainPoint (i : ℚ) : TrajectoryPoint :=
  { device_id := "dev", timestamp := i, position := (0, 0), zone_id := none,
    confidence := 1 }

/-- A C7 witness state whose single device buffer holds `n` points. -/
def bufferState (n : ℕ) : TrajectoryAnalyzer :=
  { smoothing_window := 5
    min_points := 10
    trajectories := []
    active_points := [("dev", (List.range n).map (fun i => plainPoint (i : ℚ)))]
    stats :=
      { total_trajectories := 0, avg_trajectory_length := 0, avg_speed := 0,
        popular_zones := [] } }

/-- Witness for C7: 9 points against a minimum of 10 finalize to `none` with
the state unchanged; 10 points finalize to a trajectory. -/
theorem finalize_trajectory_min_points_witness :
    finalize_trajectory (fun q => q) (bufferState 9) "dev" = (bufferState 9, none) ∧
    (finalize_trajectory (fun q => q) (bufferState 10) "dev").2.isSome = true := by
  have h9 := finalize_trajectory_min_points (fun q => q) (bufferState 9) "dev"
    ((List.range 9).map (fun i => plainPoint (i : ℚ))) rfl
  have h10 := finalize_trajectory_min_points (fun q => q) (bufferState 10) "dev"
    ((List.range 10).map (fun i => plainPoint (i : ℚ))) rfl
  exact ⟨h9.1 (by decide), h10.2 (by decide) (by decide)⟩

end TrajectoryAnalyzer

/-! ## Position calculator (`src/core/position_calculator.py`)

scipy's `minimize` (an external nonlinear optimizer) is abstracted as a
parameter: a function from the selected measurements (which determine the
least-squares objective) and the initial guess to an optimizer outcome. -/

/-- `ReceiverMeasurement` dataclass. -/
structure ReceiverMeasurement where
  receiver_id : String
  receiver_position : ℚ × ℚ
  rssi : ℤ
  distance : ℚ
  timestamp : ℚ
deriving DecidableEq, Repr

/-- Result of `scipy.optimize.minimize`: convergence flag and final point. -/
structure OptResult where
  success : Bool
  x : ℚ × ℚ
deriving DecidableEq, Repr

/-- An abstract optimizer: scipy's `minimize` on the trilateration objective
determined by the given measurements, started from the given initial guess. -/
def Optimizer : Type :=
  List ReceiverMeasurement → ℚ × ℚ → OptResult

/-- Per-device Kalman state: 4-vector (x, y, vx, vy) and 4×4 covariance. -/
structure KalmanState where
  x : Fin 4 → ℚ
  p : Fin 4 → Fin 4 → ℚ

/-- Mutable state of `PositionCalculator` (receiver map and logger omitted;
the facility dimensions are the `layout` values read by `_clip_to_facility`). -/
structure PositionCalculator where
  algorithm : String
  min_receivers : ℕ
  max_distance : ℚ
  facility_width : ℚ
  facility_height : ℚ
  kalman_states : List (String × KalmanState)

namespace PositionCalculator

/-- `sorted(measurements, key=lambda m: m.rssi, reverse=True)[:3]`. -/
def strongestThree (measurements : List ReceiverMeasurement) : List ReceiverMeasurement :=
  (pySorted (fun a b => decide (a.rssi > b.rssi)) measurements).take 3

/-- The optimizer seed: centroid of the selected measurements' receiver
positions. -/
def initial_guess (ms : List ReceiverMeasurement) : ℚ × ℚ :=
  ((ms.map (fun m => m.receiver_position.1)).sum / (ms.length : ℚ),
    (ms.map (fun m => m.receiver_position.2)).sum / (ms.length : ℚ))

/-- `_trilateration`: `none` below 3 measurements; otherwise run the abstract
optimizer on the three strongest measurements from their centroid and return
its point on success, `none` on failure. -/
def trilateration (opt : Optimizer) (measurements : List ReceiverMeasurement) :
    Option (ℚ × ℚ) :=
  if measurements.length < 3 then none
  else
    let ms := strongestThree measurements
    let result := opt ms (initial_guess ms)
    if result.success then some result.x else none

/-- `_weighted_centroid`: average of the receiver positions weighted by
`1 / (distance + 0.1)`, weights normalized to sum 1. -/
def weighted_centroid (measurements : List ReceiverMeasurement) : ℚ × ℚ :=
  let weights := measurements.map (fun m => 1 / (m.distance + 1 / 10))
  let total := weights.sum
  let normalized := weights.map (fun w => w / total)
  (((normalized.zip measurements).map (fun p => p.1 * p.2.receiver_position.1)).sum,
    ((normalized.zip measurements).map (fun p => p.1 * p.2.receiver_position.2)).sum)

/-- `_clip_to_facility`: clamp to `[0, width] × [0, height]`. -/
def clip_to_facility (pc : PositionCalculator) (position : ℚ × ℚ) : ℚ × ℚ :=
  (max 0 (min position.1 pc.facility_width), max 0 (min position.2 pc.facility_height))

/-- Matrix product over `Fin`-indexed rational matrices. -/
def matMul {a b c : ℕ} (A : Fin a → Fin b → ℚ) (B : Fin b → Fin c → ℚ) :
    Fin a → Fin c → ℚ :=
  fun i k => ∑ j, A i j * B j k

/-- Matrix–vector product. -/
def matVec {a b : ℕ} (A : Fin a → Fin b → ℚ) (v : Fin b → ℚ) : Fin a → ℚ :=
  fun i => ∑ j, A i j * v j

/-- Transpose. -/
def matT {a b : ℕ} (A : Fin a → Fin b → ℚ) : Fin b → Fin a → ℚ :=
  fun i j => A j i

/-- Pointwise matrix sum. -/
def matAdd {a b : ℕ} (A B : Fin a → Fin b → ℚ) : Fin a → Fin b → ℚ :=
  fun i j => A i j + B i j

/-- Pointwise matrix difference. -/
def matSub {a b : ℕ} (A B : Fin a → Fin b → ℚ) : Fin a → Fin b → ℚ :=
  fun i j => A i j - B i j

/-- Constant-velocity transition matrix `F` with `dt = 1`. -/
def matF : Fin 4 → Fin 4 → ℚ :=
  fun i j =>
    if i = j then 1
    else if (i = 0 ∧ j = 2) ∨ (i = 1 ∧ j = 3) then 1
    else 0

/-- Process noise `Q = 0.1 I`. -/
def matQ : Fin 4 → Fin 4 → ℚ :=
  fun i j => if i = j then 1 / 10 else 0

/-- Observation matrix `H`. -/
def matH : Fin 2 → Fin 4 → ℚ :=
  fun i j => if (i : ℕ) = (j : ℕ) then 1 else 0

/-- Observation noise `R = I`. -/
def matR : Fin 2 → Fin 2 → ℚ :=
  fun i j => if i = j then 1 else 0

/-- 4×4 identity. -/
def id4 : Fin 4 → Fin 4 → ℚ :=
  fun i j => if i = j then 1 else 0

/-- Inverse of a 2×2 matrix by the determinant formula (`np.linalg.inv`). -/
def inv2 (S : Fin 2 → Fin 2 → ℚ) : Fin 2 → Fin 2 → ℚ :=
  let det := S 0 0 * S 1 1 - S 0 1 * S 1 0
  fun i j =>
    (1 / det) *
      (if i = 0 ∧ j = 0 then S 1 1
       else if i = 0 ∧ j = 1 then -S 0 1
       else if i = 1 ∧ j = 0 then -S 1 0
       else S 0 0)

/-- The predict/update step of `_kalman_filter` on one state against the
weighted-centroid observation `z`. -/
def kalman_update (state : KalmanState) (z : ℚ × ℚ) : KalmanState :=
  let x_pred := matVec matF state.x
  let p_pred := matAdd (matMul (matMul matF state.p) (matT matF)) matQ
  let zv : Fin 2 → ℚ := fun i => if i = 0 then z.1 else z.2
  let y : Fin 2 → ℚ := fun i => zv i - matVec matH x_pred i
  let s := matAdd (matMul (matMul matH p_pred) (matT matH)) matR
  let k := matMul (matMul p_pred (matT matH)) (inv2 s)
  { x := fun i => x_pred i + matVec k y i
    p := matMul (matSub id4 (matMul k matH)) p_pred }

/-- The initial Kalman state for a first observation at `z`:
`x = (z.x, z.y, 0, 0)`, `P = 10 I`. -/
def kalman_init (z : ℚ × ℚ) : KalmanState :=
  { x := fun i => if i = 0 then z.1 else if i = 1 then z.2 else 0
    p := fun i j => if i = j then 10 else 0 }

/-- `_kalman_filter`: keyed — as in the source — by the *first measurement's
receiver id*; creates the state lazily on first sight of that key, then runs
one predict/update step against the weighted-centroid observation. -/
def kalman_filter (pc : PositionCalculator) (measurements : List ReceiverMeasurement) :
    PositionCalculator × Option (ℚ × ℚ) :=
  let device_id := (measurements.head?.map (fun m => m.receiver_id)).getD ""
  let initial_position := weighted_centroid measurements
  let pc :=
    if (pyFind? pc.kalman_states device_id).isSome then pc
    else
      { pc with
          kalman_states := pySet pc.kalman_states device_id (kalman_init initial_position) }
  let state := (pyFind? pc.kalman_states device_id).getD (kalman_init initial_position)
  let state := kalman_update state initial_position
  let pc := { pc with kalman_states := pySet pc.kalman_states device_id state }
  (pc, some (state.x 0, state.x 1))

/-- `calculate_position`: `none` below `min_receivers`, algorithm dispatch,
result clipped to the facility bounds. -/
def calculate_position (opt : Optimizer) (pc : PositionCalculator)
    (measurements : List ReceiverMeasurement) : PositionCalculator × Option (ℚ × ℚ) :=
  if measurements.length < pc.min_receivers then (pc, none)
  else
    let res :=
      if pc.algorithm = "trilateration" then (pc, trilateration opt measurements)
      else if pc.algorithm = "weighted_centroid" then
        (pc, some (weighted_centroid measurements))
      else if pc.algorithm = "kalman" then kalman_filter pc measurements
      else (pc, trilateration opt measurements)
    match res.2 with
    | some p => (res.1, some (clip_to_facility res.1 p))
    | none => (res.1, none)

/-- Claim C2, amended: when the trilateration optimizer reports failure,
`calculate_position` returns `none` — the failure is propagated as a
no-result; there is no weighted-centroid fallback. -/
theorem trilateration_failure_propagates (opt : Optimizer) (pc : PositionCalculator)
    (measurements : List ReceiverMeasurement) (halg : pc.algorithm = "trilateration")
    (hlen : pc.min_receivers ≤ measurements.length)
    (hfail :
      (opt (strongestThree measurements)
        (initial_guess (strongestThree measurements))).success = false) :
    (calculate_position opt pc measurements).2 = none := by
  have htri : trilateration opt measurements = none := by
    unfold trilateration
    by_cases h3 : measurements.length < 3
    · rw [if_pos h3]
    · rw [if_neg h3]
      simp [hfail]
  unfold calculate_position
  rw [if_neg (not_lt.mpr hlen), halg]
  simp [htri]

/-- A concrete always-failing optimizer instance. -/
def failingOpt : Optimizer := fun _ _ => { success := false, x := (0, 0) }

/-- A trilateration calculator with the default configuration. -/
def pcTrilateration : PositionCalculator :=
  { algorithm := "trilateration", min_receivers := 3, max_distance := 50,
    facility_width := 100, facility_height := 50, kalman_states := [] }

/-- Three receivers' measurements of one device. -/
def threeMeasurements : List ReceiverMeasurement :=
  [{ receiver_id := "r1", receiver_position := (0, 0), rssi := -70, distance := 7,
     timestamp := 0 },
   { receiver_id := "r2", receiver_position := (10, 0), rssi := -70, distance := 7,
     timestamp := 0 },
   { receiver_id := "r3", receiver_position := (5, 10), rssi := -68, distance := 5,
     timestamp := 0 }]

/-- Witness for the amended C2: with three measurements and a non-converging
optimizer, `calculate_position` yields `none`. -/
theorem trilateration_failure_propagates_witness :
    pcTrilateration.algorithm = "trilateration" ∧
    pcTrilateration.min_receivers ≤ threeMeasurements.length ∧
    (failingOpt (strongestThree threeMeasurements)
      (initial_guess (strongestThree threeMeasurements))).success = false ∧
    (calculate_position failingOpt pcTrilateration threeMeasurements).2 = none := by
  refine ⟨rfl, by decide, rfl, ?_⟩
  exact trilateration_failure_propagates failingOpt pcTrilateration threeMeasurements rfl
    (by decide) rfl

/-- Counterexample to C2 as stated: the optimizer fails on three valid
measurements and `calculate_position` returns `none` instead of falling back
to the weighted centroid — it does not "still return a position". -/
theorem trilateration_failure_no_fallback :
    (calculate_position failingOpt pcTrilateration threeMeasurements).2 = none ∧
      weighted_centroid threeMeasurements ≠ (0, 0) := by
  constructor
  · unfold calculate_position trilateration
    norm_num +decide [pcTrilateration, threeMeasurements, failingOpt]
  · norm_num +decide [weighted_centroid, threeMeasurements]

/-- Claim C3, amended: with the weighted-centroid strategy,
`calculate_position` returns a position for every measurement list of length
at least `min_receivers` (not for every non-empty list): the clamp of the
`1 / (distance + 0.1)`-weighted average of the receiver positions, which
equals that weighted average whenever it lies within the facility bounds. -/
theorem weighted_centroid_succeeds (opt : Optimizer) (pc : PositionCalculator)
    (measurements : List ReceiverMeasurement)
    (halg : pc.algorithm = "weighted_centroid")
    (hlen : pc.min_receivers ≤ measurements.length) :
    (calculate_position opt pc measurements).2 =
      some (clip_to_facility pc (weighted_centroid measurements)) ∧
    (0 ≤ (weighted_centroid measurements).1 →
      (weighted_centroid measurements).1 ≤ pc.facility_width →
      0 ≤ (weighted_centroid measurements).2 →
      (weighted_centroid measurements).2 ≤ pc.facility_height →
      (calculate_position opt pc measurements).2 =
        some (weighted_centroid measurements)) := by
  have hmain : (calculate_position opt pc measurements).2 =
      some (clip_to_facility pc (weighted_centroid measurements)) := by
    unfold calculate_position
    rw [if_neg (not_lt.mpr hlen), halg]
    simp
  refine ⟨hmain, ?_⟩
  intro h1 h2 h3 h4
  rw [hmain]
  unfold clip_to_facility
  rw [min_eq_left h2, max_eq_right h1, min_eq_left h4, max_eq_right h3]

/-- A weighted-centroid calculator with the default receiver threshold. -/
def pcCentroid : PositionCalculator :=
  { algorithm := "weighted_centroid", min_receivers := 3, max_distance := 50,
    facility_width := 100, facility_height := 50, kalman_states := [] }

/-- Witness for the amended C3: three measurements with equal distances give
the plain centroid (5, 10/3), inside the facility. -/
theorem weighted_centroid_succeeds_witness :
    pcCentroid.algorithm = "weighted_centroid" ∧
    pcCentroid.min_receivers ≤ threeMeasurements.length ∧
    (calculate_position failingOpt pcCentroid threeMeasurements).2 =
      some (clip_to_facility pcCentroid (weighted_centroid threeMeasurements)) ∧
    (calculate_position failingOpt pcCentroid threeMeasurements).2 =
      some (weighted_centroid threeMeasurements) := by
  have h := weighted_centroid_succeeds failingOpt pcCentroid threeMeasurements rfl (by decide)
  refine ⟨rfl, by decide, h.1, ?_⟩
  apply h.2
  · norm_num +decide [weighted_centroid, threeMeasurements]
  · norm_num +decide [weighted_centroid, threeMeasurements, pcCentroid]
  · norm_num +decide [weighted_centroid, threeMeasurements]
  · norm_num +decide [weighted_centroid, threeMeasurements, pcCentroid]

/-- Counterexample to C3 as stated: a single measurement is a non-empty list,
yet `calculate_position` under the weighted-centroid strategy (default
`min_receivers = 3`) returns `none`. -/
theorem weighted_centroid_single_measurement_none :
    (calculate_position failingOpt pcCentroid
      [{ receiver_id := "r1", receiver_position := (5, 5), rssi := -70,
         distance := 7, timestamp := 0 }]).2 = none := by
  unfold calculate_position
  norm_num [pcCentroid]

end PositionCalculator

/-! ## Device manager (`src/core/device_manager.py`)

`hashlib.sha256(...).hexdigest()` is abstracted as a parameter
`sha : String → String` (the hex digest of the input bytes); truncation to 16
characters is `String.take 16` as in the source's `[:16]`. -/

/-- `Device` dataclass (the free-form `metadata` dict is omitted). -/
structure Device where
  device_id : String
  mac_address : String
  first_seen : ℚ
  last_seen : ℚ
  device_name : Option String
  device_type : String
  is_anonymous : Bool
  total_detections : ℕ
  zones_visited : List String
  current_zone : Option String
  current_position : Option (ℚ × ℚ)
  position_history : List (ℚ × (ℚ × ℚ))
deriving DecidableEq, Repr

/-- Mutable state of `DeviceManager` (scan sets kept as duplicate-free lists;
of the `stats` dict the fields touched by registration/cleanup are kept). -/
structure DeviceManager where
  devices : List (String × Device)
  mac_to_id : List (String × String)
  current_scan_devices : List String
  previous_scan_devices : List String
  anonymize : Bool
  salt : String
  stats_total_devices : ℤ
  stats_device_types : List (String × ℤ)
deriving DecidableEq, Repr

namespace DeviceManager

/-- `_generate_salt`: sha-256 of a fixed phrase around the current date
(`%Y-%m-%d`), truncated to 16 hex characters; the same day gives the same
salt. -/
def generate_salt (sha : String → String) (date_str : String) : String :=
  (sha ("bluetooth-heatmap-" ++ date_str ++ "-salt")).take 16

/-- `_anonymize_mac`: the raw MAC when anonymization is off; otherwise the
sha-256 of the MAC address **alone** truncated to 16 hex characters — the
stored salt does not enter the hash. -/
def anonymize_mac (sha : String → String) (mgr : DeviceManager) (mac_address : String) :
    String :=
  if !mgr.anonymize then mac_address
  else (sha mac_address).take 16

/-- `start_new_scan`: rotate the scan sets. -/
def start_new_scan (mgr : DeviceManager) : DeviceManager :=
  { mgr with previous_scan_devices := mgr.current_scan_devices,
             current_scan_devices := [] }

/-- The `for mac, did in list(...): if did == device_id: del ...; break` loop
of `cleanup_undetected_devices`: drop the first binding with the given value. -/
def eraseFirstValue (l : List (String × String)) (v : String) : List (String × String) :=
  match l with
  | [] => []
  | (k, v') :: rest => if v' = v then rest else (k, v') :: eraseFirstValue rest v

/-- `cleanup_undetected_devices`: devices in the previous scan but not the
current one whose last detection is more than 5 seconds old are removed from
the registry (devices map, MAC mapping, stats); returns the removed ids. -/
def cleanup_undetected_devices (mgr : DeviceManager) (now : ℚ) :
    DeviceManager × List String :=
  let undetected :=
    mgr.previous_scan_devices.filter (fun d => !mgr.current_scan_devices.contains d)
  undetected.foldl
    (fun acc d =>
      match pyFind? acc.1.devices d with
      | none => acc
      | some dev =>
          if now - dev.last_seen > 5 then
            let m := acc.1
            let m := { m with mac_to_id := eraseFirstValue m.mac_to_id d }
            let m := { m with devices := pyErase m.devices d }
            let m :=
              { m with
                  stats_total_devices := m.stats_total_devices - 1,
                  stats_device_types :=
                    if pyMem m.stats_device_types dev.device_type then
                      pySet m.stats_device_types dev.device_type
                        (pyGetD m.stats_device_types dev.device_type 0 - 1)
                    else m.stats_device_types }
            (m, acc.2 ++ [d])
          else acc)
    (mgr, [])

/-- Claim C4, amended: the anonymized id is a function of the hardware
address alone — `sha256(mac)[:16]` — and is independent of the stored salt;
two manager states differing only in their (daily-rotated) salt assign the
same id to the same hardware address. -/
theorem anonymize_mac_salt_independent (sha : String → String)
    (mgr1 mgr2 : DeviceManager) (mac_address : String)
    (h : mgr1.anonymize = mgr2.anonymize) :
    anonymize_mac sha mgr1 mac_address = anonymize_mac sha mgr2 mac_address ∧
    (mgr1.anonymize = true →
      anonymize_mac sha mgr1 mac_address = (sha mac_address).take 16) := by
  constructor
  · unfold anonymize_mac
    rw [h]
  · intro hon
    unfold anonymize_mac
    rw [hon]
    simp

/-- A concrete injective stand-in for the abstract sha-256 hex digest, used
only to instantiate witnesses: reverses the character list. -/
def shaStub : String → String := fun s => String.mk s.data.reverse

/-- A device-manager state with everything empty, anonymization on, and the
given salt. -/
def mgrWithSalt (salt : String) : DeviceManager :=
  { devices := [], mac_to_id := [], current_scan_devices := [],
    previous_scan_devices := [], anonymize := true, salt := salt,
    stats_total_devices := 0, stats_device_types := [] }

/-- Witness for the amended C4: two concrete rotation windows produce
distinct salts, yet the same MAC maps to the same id. -/
theorem anonymize_mac_salt_independent_witness :
    (mgrWithSalt (generate_salt shaStub "2025-01-01")).anonymize =
        (mgrWithSalt (generate_salt shaStub "2025-01-02")).anonymize ∧
    (mgrWithSalt (generate_salt shaStub "2025-01-01")).salt ≠
        (mgrWithSalt (generate_salt shaStub "2025-01-02")).salt ∧
    anonymize_mac shaStub (mgrWithSalt (generate_salt shaStub "2025-01-01"))
        "AA:BB:CC:DD:EE:FF" =
      anonymize_mac shaStub (mgrWithSalt (generate_salt shaStub "2025-01-02"))
        "AA:BB:CC:DD:EE:FF" ∧
    anonymize_mac shaStub (mgrWithSalt (generate_salt shaStub "2025-01-01"))
        "AA:BB:CC:DD:EE:FF" =
      (shaStub "AA:BB:CC:DD:EE:FF").take 16 := by
  have h := anonymize_mac_salt_independent shaStub
    (mgrWithSalt (generate_salt shaStub "2025-01-01"))
    (mgrWithSalt (generate_salt shaStub "2025-01-02")) "AA:BB:CC:DD:EE:FF" rfl
  exact ⟨rfl, by decide, h.1, h.2 rfl⟩

/-- Counterexample to C4 as stated: with the hash call abstracted by any
concrete function (here `shaStub` standing in for the external
sha-256 hex digest), there is **no** pair of manager states — in particular
no pair of distinct rotation salts — under which the same hardware address
maps to different device ids; the salt never enters the hash. -/
theorem no_salt_pair_changes_device_id :
    ¬ ∃ s1 s2 : String, s1 ≠ s2 ∧
      anonymize_mac shaStub (mgrWithSalt s1) "AA:BB:CC:DD:EE:FF" ≠
        anonymize_mac shaStub (mgrWithSalt s2) "AA:BB:CC:DD:EE:FF" := by
  rintro ⟨s1, s2, _, hne⟩
  exact hne rfl

end DeviceManager

/-! ## The assembled tracking system (`src/main.py`)

`LocationTrackingSystem` owns both the registry and the position calculator;
its maintenance path only ever calls registry cleanup — the repository
contains no code that removes Kalman entries when a device is reaped. -/

/-- The registry and estimator held by the main system object. -/
structure TrackingSystem where
  device_manager : DeviceManager
  position_calculator : PositionCalculator

namespace TrackingSystem

/-- A reap pass: run the registry's cleanup; the position calculator (and in
particular `kalman_states`) is not touched by any code on this path. -/
def reap_step (sys : TrackingSystem) (now : ℚ) : TrackingSystem × List String :=
  let r := DeviceManager.cleanup_undetected_devices sys.device_manager now
  ({ device_manager := r.1, position_calculator := sys.position_calculator }, r.2)

/-- Claim C5, amended: Kalman state is created lazily on the first
`_kalman_filter` call for its key (the first measurement's receiver id, as in
the source) and persists — each later call updates the existing state rather
than recreating it; but reaping a device via the registry's cleanup does
*not* discard its Kalman entry: the entry after a reap is exactly the entry
before it. -/
theorem kalman_lifecycle (pc : BHS.PositionCalculator)
    (measurements : List ReceiverMeasurement) (sys : TrackingSystem) (now : ℚ)
    (d : String) :
    (∀ key, key = (measurements.head?.map (fun m => m.receiver_id)).getD "" →
      (pyFind? pc.kalman_states key = none →
        pyFind? (PositionCalculator.kalman_filter pc measurements).1.kalman_states key =
          some (PositionCalculator.kalman_update
            (PositionCalculator.kalman_init
              (PositionCalculator.weighted_centroid measurements))
            (PositionCalculator.weighted_centroid measurements))) ∧
      (∀ s, pyFind? pc.kalman_states key = some s →
        pyFind? (PositionCalculator.kalman_filter pc measurements).1.kalman_states key =
          some (PositionCalculator.kalman_update s
            (PositionCalculator.weighted_centroid measurements)))) ∧
    (d ∈ (reap_step sys now).2 →
      pyFind? (reap_step sys now).1.position_calculator.kalman_states d =
        pyFind? sys.position_calculator.kalman_states d) := by
  constructor
  · intro key hkey
    constructor
    · intro hnone
      unfold PositionCalculator.kalman_filter
      rw [← hkey]
      simp only [hnone, Option.isSome_none, Bool.false_eq_true, if_false,
        pyFind?_pySet_self, Option.getD_some]
    · intro s hsome
      unfold PositionCalculator.kalman_filter
      rw [← hkey]
      simp only [hsome, Option.isSome_some, if_true, Option.getD_some, pyFind?_pySet_self]
  · intro _
    rfl

/-- A Kalman-strategy calculator with no per-device state yet. -/
def pcKalman : BHS.PositionCalculator :=
  { algorithm := "kalman", min_receivers := 3, max_distance := 50,
    facility_width := 100, facility_height := 50, kalman_states := [] }

/-- A single measurement whose (first) receiver id keys the Kalman state. -/
def kalMeasurement : ReceiverMeasurement :=
  { receiver_id := "dev1", receiver_position := (5, 5), rssi := -70, distance := 7,
    timestamp := 0 }

/-- A registry device last seen at time 0, present in the previous scan only. -/
def reapedDevice : Device :=
  { device_id := "dev1", mac_address := "", first_seen := 0, last_seen := 0,
    device_name := none, device_type := "unknown", is_anonymous := true,
    total_detections := 1, zones_visited := [], current_zone := none,
    current_position := none, position_history := [] }

/-- A tracking system holding one reap-eligible device whose id also keys a
live Kalman entry. -/
def sysWithKalman : TrackingSystem :=
  { device_manager :=
      { devices := [("dev1", reapedDevice)], mac_to_id := [("AA:BB", "dev1")],
        current_scan_devices := [], previous_scan_devices := ["dev1"],
        anonymize := true, salt := "s", stats_total_devices := 1,
        stats_device_types := [("unknown", 1)] }
    position_calculator :=
      (PositionCalculator.kalman_filter pcKalman [kalMeasurement]).1 }

/-- Witness for the amended C5: lazy creation on the first call, update of
the existing state on the second call, and a reap at time 10 that removes the
device yet leaves its Kalman entry exactly as it was. -/
theorem kalman_lifecycle_witness :
    pyFind?
        (PositionCalculator.kalman_filter pcKalman [kalMeasurement]).1.kalman_states
        "dev1" =
      some (PositionCalculator.kalman_update
        (PositionCalculator.kalman_init
          (PositionCalculator.weighted_centroid [kalMeasurement]))
        (PositionCalculator.weighted_centroid [kalMeasurement])) ∧
    "dev1" ∈ (reap_step sysWithKalman 10).2 ∧
    pyFind? (reap_step sysWithKalman 10).1.position_calculator.kalman_states "dev1" =
      pyFind? sysWithKalman.position_calculator.kalman_states "dev1" := by
  have h := kalman_lifecycle pcKalman [kalMeasurement] sysWithKalman 10 "dev1"
  refine ⟨((h.1 "dev1" rfl).1 rfl), ?_, ?_⟩
  · norm_num +decide [reap_step, DeviceManager.cleanup_undetected_devices, sysWithKalman,
      reapedDevice, DeviceManager.eraseFirstValue, pyFind?, pyErase, pyMem, pyGetD, pySet]
  · exact h.2 (by
      norm_num +decide [reap_step, DeviceManager.cleanup_undetected_devices, sysWithKalman,
        reapedDevice, DeviceManager.eraseFirstValue, pyFind?, pyErase, pyMem, pyGetD, pySet])

/-- Counterexample to C5 as stated: device `dev1` is removed by the
registry's cleanup of undetected devices, yet a Kalman state entry for it
remains afterwards — no code on the reap path touches `kalman_states`. -/
theorem reaped_device_keeps_kalman_state :
    "dev1" ∈ (reap_step sysWithKalman 10).2 ∧
    (pyFind?
        (reap_step sysWithKalman 10).1.position_calculator.kalman_states "dev1").isSome =
      true := by
  constructor
  · norm_num +decide [reap_step, DeviceManager.cleanup_undetected_devices, sysWithKalman,
      reapedDevice, DeviceManager.eraseFirstValue, pyFind?, pyErase, pyMem, pyGetD, pySet]
  · show (pyFind?
        (PositionCalculator.kalman_filter pcKalman [kalMeasurement]).1.kalman_states
        "dev1").isSome = true
    unfold PositionCalculator.kalman_filter
    simp [pcKalman, kalMeasurement, pyFind?_pySet_self, pyFind?]

end TrackingSystem

end BHS
